import Mathlib

/-!
Shallow embedding of the Nexus media production coordinator
(services/producer-nexus): the coordinator pass in src/index.js and the
three provider chains in src/services/audioService.js,
src/services/imageService.js and src/services/videoService.js, together
with the storage key construction of src/services/storageService.js.

External effects (remote provider calls, storage uploads, ffmpeg
renders, database writes) are modelled by an explicit environment of
outcomes; everything else is translated directly from the JavaScript
source.
-/

namespace Nexus

/-- Media asset categories handled by the coordinator (index.js). -/
inductive Cat
| audio
| thumbnail
| video
deriving DecidableEq

/-- Generation providers appearing in the three chains. -/
inductive Prov
| elevenlabs
| dalle
| midjourney
| pictory
| runway
| fallback
deriving DecidableEq

/-- Status reported by one poll of an asynchronous remote provider. -/
inductive PollStatus
| completed (url : String)
| failed
| pending
deriving DecidableEq

/-- Failure reasons of a single provider attempt. -/
inductive GenErr
| submitFailed
| remoteFailed
| timeout
| downloadFailed
| uploadFailed
| renderFailed
deriving DecidableEq

/-- Parameters of the WAV file produced by createSilentAudio
(audioService.js, lines 98 to 132). -/
structure WavFile where
  sampleRate : Nat
  numChannels : Nat
  bitsPerSample : Nat
  dataSize : Nat
  fileSize : Nat
deriving DecidableEq

/-- Translation of createSilentAudio: a silent 16 kHz mono 16-bit WAV
buffer sized from the requested duration; a pure in-memory computation
with no failure path. -/
def createSilentAudio (durationSeconds : Nat) : WavFile :=
  let sampleRate := 16000
  let numSamples := sampleRate * durationSeconds
  let numChannels := 1
  let bytesPerSample := 16 / 8
  let blockAlign := numChannels * bytesPerSample
  let dataSize := numSamples * blockAlign
  { sampleRate := sampleRate
  , numChannels := numChannels
  , bitsPerSample := 16
  , dataSize := dataSize
  , fileSize := 44 + dataSize }

/-- Bytes handed to the storage gateway, tagged by provenance; the
claims never inspect remote byte contents, so those are abstract. -/
inductive Buffer
| wav (w : WavFile)
| png (lines : List String)
| clip (title : String)
| remote (url : String)
| resized (formatName : String)
deriving DecidableEq

/-- Environment of external outcomes for one processing pass: which
provider credentials are configured, how each remote call behaves, how
each storage upload behaves, and how the database writes behave. -/
structure Env where
  elevenConfigured : Bool
  elevenRequestOk : Bool
  openaiConfigured : Bool
  dalleRequestOk : Bool
  dalleDownloadOk : Bool
  midjourneyConfigured : Bool
  midjourneySubmitOk : Bool
  midjourneyStatus : Nat → PollStatus
  midjourneyDownloadOk : Bool
  pictoryConfigured : Bool
  pictorySubmitOk : Bool
  pictoryStatus : Nat → PollStatus
  pictoryDownloadOk : Bool
  runwayConfigured : Bool
  runwaySubmitOk : Bool
  runwayStatus : Nat → PollStatus
  runwayDownloadOk : Bool
  ffmpegRenderOk : Bool
  formatDownloadOk : Bool
  resizeOk : String → Bool
  measureText : String → Nat
  uploadOk : String → Bool
  publicBaseUrl : String
  bucket : String
  persistOk : Bool
  failStatusUpdateOk : Bool

/-- Public URL returned by StorageService.uploadBuffer
(storageService.js): publicBaseUrl/bucket/key. -/
def urlOf (env : Env) (key : String) : String :=
  env.publicBaseUrl ++ "/" ++ env.bucket ++ "/" ++ key

/-- Storage key of the ElevenLabs audio asset (audioService.js line 65). -/
def elevenLabsAudioKey (jobId : String) : String :=
  "jobs/" ++ jobId ++ "/audio_elevenlabs.mp3"

/-- Storage key of the fallback audio asset (audioService.js line 87). -/
def audioFallbackKey (jobId : String) : String :=
  "jobs/" ++ jobId ++ "/audio_fallback.wav"

/-- Storage key of the DALL-E thumbnail (imageService.js line 62). -/
def dalleThumbKey (jobId : String) : String :=
  "jobs/" ++ jobId ++ "/thumbnail_dalle.png"

/-- Storage key of the Midjourney thumbnail (imageService.js line 134). -/
def midjourneyThumbKey (jobId : String) : String :=
  "jobs/" ++ jobId ++ "/thumbnail_midjourney.png"

/-- Storage key of the fallback thumbnail (imageService.js line 202). -/
def thumbFallbackKey (jobId : String) : String :=
  "jobs/" ++ jobId ++ "/thumbnail_fallback.png"

/-- Storage key of the Pictory video (videoService.js line 108). -/
def pictoryVideoKey (jobId : String) : String :=
  "jobs/" ++ jobId ++ "/video_pictory.mp4"

/-- Storage key of the RunwayML video (videoService.js line 180). -/
def runwayVideoKey (jobId : String) : String :=
  "jobs/" ++ jobId ++ "/video_runway.mp4"

/-- Storage key of the fallback video (videoService.js line 223). -/
def videoFallbackKey (jobId : String) : String :=
  "jobs/" ++ jobId ++ "/video_fallback.mp4"

/-- Storage key of a resized presentation (videoService.js line 294). -/
def resizeVideoKey (jobId formatName : String) : String :=
  "jobs/" ++ jobId ++ "/video_" ++ formatName ++ ".mp4"

/-- The primary key convention as the specification words it:
jobs/jobId/category_providerName.ext. -/
def specPrimaryKey (jobId category providerName ext : String) : String :=
  "jobs/" ++ jobId ++ ("/" ++ category ++ "_") ++ (providerName ++ ("." ++ ext))

/-- The expanded presentation key convention as the specification words
it: jobs/jobId/presentationName.ext. -/
def specPresentationKey (jobId presentationName ext : String) : String :=
  "jobs/" ++ jobId ++ "/" ++ (presentationName ++ ("." ++ ext))

theorem str_append_assoc (a b c : String) : a ++ b ++ c = a ++ (b ++ c) := by
  apply String.ext
  simp [String.data_append, List.append_assoc]

theorem append_group (a b c w : String) (h : b ++ c = w) :
    a ++ w = a ++ b ++ c := by
  rw [str_append_assoc a b c, h]

instance exceptDecEq {e a : Type} [DecidableEq e] [DecidableEq a] :
    DecidableEq (Except e a) := fun x y =>
  match x, y with
  | Except.ok u, Except.ok v =>
    if h : u = v then isTrue (by rw [h])
    else isFalse (fun hc => by cases hc; exact h rfl)
  | Except.ok _, Except.error _ => isFalse (fun hc => by cases hc)
  | Except.error _, Except.ok _ => isFalse (fun hc => by cases hc)
  | Except.error u, Except.error v =>
    if h : u = v then isTrue (by rw [h])
    else isFalse (fun hc => by cases hc; exact h rfl)

/-- Result of one provider attempt: the number of status polls it
performed, the storage uploads it completed (key and bytes), and the
outcome (durable URL or failure reason). -/
structure ProvResult where
  polls : Nat
  uploads : List (String × Buffer)
  result : Except GenErr String
deriving DecidableEq

/-- Result of driving one whole category chain: providers attempted in
order, storage uploads completed, and the final outcome. -/
structure ChainResult where
  attempted : List Prov
  uploads : List (String × Buffer)
  result : Except GenErr String
deriving DecidableEq

/-- StorageService.uploadBuffer at one key: on success the key is
written and the public URL returned, otherwise an upload error. -/
def tryUpload (env : Env) (key : String) (buf : Buffer) (polls : Nat) :
    ProvResult :=
  if env.uploadOk key then
    { polls := polls, uploads := [(key, buf)], result := Except.ok (urlOf env key) }
  else
    { polls := polls, uploads := [], result := Except.error GenErr.uploadFailed }

/-- The bounded poll loop shared by Pictory, RunwayML and Midjourney
(while attempts < maxAttempts and no url: poll once; a completed or
failed report is terminal, otherwise the attempt counter advances;
exhausting the budget is a timeout). Returns the outcome and the total
number of polls performed. -/
def pollAux (status : Nat → PollStatus) :
    Nat → Nat → Except GenErr String × Nat
  | n, 0 => (Except.error GenErr.timeout, n)
  | n, fuel + 1 =>
    match status n with
    | PollStatus.completed u => (Except.ok u, n + 1)
    | PollStatus.failed => (Except.error GenErr.remoteFailed, n + 1)
    | PollStatus.pending => pollAux status (n + 1) fuel

/-- Poll loop started at attempt zero with the configured budget. -/
def pollLoop (maxAttempts : Nat) (status : Nat → PollStatus) :
    Except GenErr String × Nat :=
  pollAux status 0 maxAttempts

/-- Poll budget of the Pictory loop (videoService.js line 78). -/
def pictoryMaxAttempts : Nat := 30

/-- Poll budget of the RunwayML loop (videoService.js line 150). -/
def runwayMaxAttempts : Nat := 20

/-- Poll budget of the Midjourney loop (imageService.js line 104). -/
def midjourneyMaxAttempts : Nat := 20

/-- Script length threshold for launching the video category
(index.js line 123). -/
def videoScriptThreshold : Nat := 100

/-- generateElevenLabsAudio: synchronous TTS request, then upload of
the returned bytes under the elevenlabs audio key. -/
def generateElevenLabsAudio (env : Env) (jobId : String) : ProvResult :=
  if env.elevenRequestOk then
    tryUpload env (elevenLabsAudioKey jobId) (Buffer.remote "elevenlabs") 0
  else
    { polls := 0, uploads := [], result := Except.error GenErr.submitFailed }

/-- generateFallbackAudio: a silent WAV sized from the script length
(capped at 30 seconds), then upload under the fallback audio key; the
generation step is a pure computation. -/
def generateFallbackAudio (env : Env) (scriptText jobId : String) :
    ProvResult :=
  let wav := createSilentAudio (min (scriptText.length / 10) 30)
  tryUpload env (audioFallbackKey jobId) (Buffer.wav wav) 0

/-- generateAudio (audioService.js lines 24 to 36): ElevenLabs when the
credential is configured, with any failure caught and retried on the
fallback; with no credential the fallback runs directly, and a fallback
failure inside the try block is caught and the fallback retried once. -/
def generateAudio (env : Env) (scriptText jobId : String) : ChainResult :=
  if env.elevenConfigured then
    let p := generateElevenLabsAudio env jobId
    match p.result with
    | Except.ok u => ⟨[Prov.elevenlabs], p.uploads, Except.ok u⟩
    | Except.error _ =>
      let f := generateFallbackAudio env scriptText jobId
      ⟨[Prov.elevenlabs, Prov.fallback], p.uploads ++ f.uploads, f.result⟩
  else
    let f := generateFallbackAudio env scriptText jobId
    match f.result with
    | Except.ok u => ⟨[Prov.fallback], f.uploads, Except.ok u⟩
    | Except.error _ =>
      let f2 := generateFallbackAudio env scriptText jobId
      ⟨[Prov.fallback, Prov.fallback], f.uploads ++ f2.uploads, f2.result⟩

/-- generateDALLEThumbnail: synchronous image request, download of the
remote image, then upload under the dalle thumbnail key. -/
def generateDALLEThumbnail (env : Env) (jobId : String) : ProvResult :=
  if env.dalleRequestOk then
    if env.dalleDownloadOk then
      tryUpload env (dalleThumbKey jobId) (Buffer.remote "dalle") 0
    else
      { polls := 0, uploads := [], result := Except.error GenErr.downloadFailed }
  else
    { polls := 0, uploads := [], result := Except.error GenErr.submitFailed }

/-- generateMidjourneyThumbnail: submission, bounded poll loop of 20
attempts, download of the completed image, then upload under the
midjourney thumbnail key. -/
def generateMidjourneyThumbnail (env : Env) (jobId : String) : ProvResult :=
  if env.midjourneySubmitOk then
    match pollLoop midjourneyMaxAttempts env.midjourneyStatus with
    | (Except.ok u, n) =>
      if env.midjourneyDownloadOk then
        tryUpload env (midjourneyThumbKey jobId) (Buffer.remote u) n
      else
        { polls := n, uploads := [], result := Except.error GenErr.downloadFailed }
    | (Except.error e, n) =>
      { polls := n, uploads := [], result := Except.error e }
  else
    { polls := 0, uploads := [], result := Except.error GenErr.submitFailed }

/-- wrapText (imageService.js lines 310 to 332): greedy line wrapping
of the title words against the measured text width. -/
def wrapText (measure : String → Nat) (words : List String)
    (maxWidth : Nat) : List String :=
  let step := fun (acc : List String × String) (word : String) =>
    let testLine := if acc.2 = "" then word else acc.2 ++ " " ++ word
    if measure testLine > maxWidth ∧ acc.2 ≠ "" then
      (acc.1 ++ [acc.2], word)
    else
      (acc.1, testLine)
  let folded := words.foldl step ([], "")
  if folded.2 ≠ "" then folded.1 ++ [folded.2] else folded.1

/-- generateFallbackThumbnail: a gradient canvas card with the wrapped
title text, drawn by pure synchronous canvas operations, then upload
under the fallback thumbnail key. -/
def generateFallbackThumbnail (env : Env) (title jobId : String) :
    ProvResult :=
  let lines := wrapText env.measureText (title.splitOn " ") (1792 - 100)
  tryUpload env (thumbFallbackKey jobId) (Buffer.png lines) 0

/-- generateThumbnail (imageService.js lines 19 to 32): DALL-E when the
OpenAI credential is configured, otherwise Midjourney when its
credential is configured, otherwise the fallback; any failure is caught
and the fallback attempted (again, when the fallback itself was the
branch that failed). -/
def generateThumbnail (env : Env) (title jobId : String) : ChainResult :=
  if env.openaiConfigured then
    let p := generateDALLEThumbnail env jobId
    match p.result with
    | Except.ok u => ⟨[Prov.dalle], p.uploads, Except.ok u⟩
    | Except.error _ =>
      let f := generateFallbackThumbnail env title jobId
      ⟨[Prov.dalle, Prov.fallback], p.uploads ++ f.uploads, f.result⟩
  else if env.midjourneyConfigured then
    let p := generateMidjourneyThumbnail env jobId
    match p.result with
    | Except.ok u => ⟨[Prov.midjourney], p.uploads, Except.ok u⟩
    | Except.error _ =>
      let f := generateFallbackThumbnail env title jobId
      ⟨[Prov.midjourney, Prov.fallback], p.uploads ++ f.uploads, f.result⟩
  else
    let f := generateFallbackThumbnail env title jobId
    match f.result with
    | Except.ok u => ⟨[Prov.fallback], f.uploads, Except.ok u⟩
    | Except.error _ =>
      let f2 := generateFallbackThumbnail env title jobId
      ⟨[Prov.fallback, Prov.fallback], f.uploads ++ f2.uploads, f2.result⟩

/-- generatePictoryVideo: storyboard submission, bounded poll loop of
30 attempts, download of the completed video, then upload under the
pictory video key. -/
def generatePictoryVideo (env : Env) (jobId : String) : ProvResult :=
  if env.pictorySubmitOk then
    match pollLoop pictoryMaxAttempts env.pictoryStatus with
    | (Except.ok u, n) =>
      if env.pictoryDownloadOk then
        tryUpload env (pictoryVideoKey jobId) (Buffer.remote u) n
      else
        { polls := n, uploads := [], result := Except.error GenErr.downloadFailed }
    | (Except.error e, n) =>
      { polls := n, uploads := [], result := Except.error e }
  else
    { polls := 0, uploads := [], result := Except.error GenErr.submitFailed }

/-- generateRunwayVideo: generation submission, bounded poll loop of 20
attempts, download of the completed video, then upload under the runway
video key. -/
def generateRunwayVideo (env : Env) (jobId : String) : ProvResult :=
  if env.runwaySubmitOk then
    match pollLoop runwayMaxAttempts env.runwayStatus with
    | (Except.ok u, n) =>
      if env.runwayDownloadOk then
        tryUpload env (runwayVideoKey jobId) (Buffer.remote u) n
      else
        { polls := n, uploads := [], result := Except.error GenErr.downloadFailed }
    | (Except.error e, n) =>
      { polls := n, uploads := [], result := Except.error e }
  else
    { polls := 0, uploads := [], result := Except.error GenErr.submitFailed }

/-- generateFallbackVideo (videoService.js lines 196 to 240): a local
ffmpeg render of a colored clip with the title text (the ffmpeg run has
an explicit error path, wired to reject), then upload of the rendered
file under the fallback video key. -/
def generateFallbackVideo (env : Env) (title jobId : String) : ProvResult :=
  if env.ffmpegRenderOk then
    tryUpload env (videoFallbackKey jobId) (Buffer.clip title) 0
  else
    { polls := 0, uploads := [], result := Except.error GenErr.renderFailed }

/-- generateVideo (videoService.js lines 37 to 50): Pictory when its
credential is configured, otherwise RunwayML when its credential is
configured, otherwise the fallback; any failure is caught and the
fallback attempted (again, when the fallback itself was the branch that
failed). -/
def generateVideo (env : Env) (title jobId : String) : ChainResult :=
  if env.pictoryConfigured then
    let p := generatePictoryVideo env jobId
    match p.result with
    | Except.ok u => ⟨[Prov.pictory], p.uploads, Except.ok u⟩
    | Except.error _ =>
      let f := generateFallbackVideo env title jobId
      ⟨[Prov.pictory, Prov.fallback], p.uploads ++ f.uploads, f.result⟩
  else if env.runwayConfigured then
    let p := generateRunwayVideo env jobId
    match p.result with
    | Except.ok u => ⟨[Prov.runway], p.uploads, Except.ok u⟩
    | Except.error _ =>
      let f := generateFallbackVideo env title jobId
      ⟨[Prov.runway, Prov.fallback], p.uploads ++ f.uploads, f.result⟩
  else
    let f := generateFallbackVideo env title jobId
    match f.result with
    | Except.ok u => ⟨[Prov.fallback], f.uploads, Except.ok u⟩
    | Except.error _ =>
      let f2 := generateFallbackVideo env title jobId
      ⟨[Prov.fallback, Prov.fallback], f.uploads ++ f2.uploads, f2.result⟩

/-- The fixed presentation configuration of generateMultipleFormats
(videoService.js lines 245 to 249): name, width, height, ratio. -/
def videoFormats : List (String × Nat × Nat × String) :=
  [("landscape", 1920, 1080, "16:9"),
   ("portrait", 1080, 1920, "9:16"),
   ("square", 1080, 1080, "1:1")]

/-- One attached format variant (url, dimensions, ratio). -/
structure FormatVariant where
  url : String
  dimensions : String
  ratio : String
deriving DecidableEq

/-- resizeVideo (videoService.js lines 269 to 313): download the
primary video, re-encode it to the target size, and upload the result
under the resize key for the presentation name. -/
def resizeVideo (env : Env) (jobId formatName : String) : ProvResult :=
  if env.formatDownloadOk then
    if env.resizeOk formatName then
      tryUpload env (resizeVideoKey jobId formatName)
        (Buffer.resized formatName) 0
    else
      { polls := 0, uploads := [], result := Except.error GenErr.renderFailed }
  else
    { polls := 0, uploads := [], result := Except.error GenErr.downloadFailed }

/-- generateMultipleFormats (videoService.js lines 242 to 267): resize
the primary video once per configured presentation; a failing
presentation is logged and skipped, successes are collected keyed by
presentation name. Returns the variant map and the uploads written. -/
def generateMultipleFormats (env : Env) (jobId : String) :
    List (String × FormatVariant) × List (String × Buffer) :=
  videoFormats.foldl
    (fun acc f =>
      let r := resizeVideo env jobId f.1
      match r.result with
      | Except.ok u =>
        (acc.1 ++ [(f.1, ⟨u, toString f.2.1 ++ "x" ++ toString f.2.2.1, f.2.2.2⟩)],
         acc.2 ++ r.uploads)
      | Except.error _ => acc)
    ([], [])

/-- Lookup of a presentation name in a variant map. -/
def lookupFmt (name : String) : List (String × FormatVariant) → Option FormatVariant
  | [] => none
  | p :: rest => if p.1 = name then some p.2 else lookupFmt name rest

/-- One media asset as stored in the media_assets document: the durable
URL and, for the video asset, the attached format variants. -/
structure Asset where
  url : String
  formats : List (String × FormatVariant)
deriving DecidableEq

/-- The aggregated media asset map (category to asset). -/
structure AssetMap where
  audio : Option Asset
  thumbnail : Option Asset
  video : Option Asset
deriving DecidableEq

/-- One row of the content_jobs table, restricted to the columns the
producer reads and writes. -/
structure JobRow where
  id : String
  title : Option String
  script_text : Option String
  media_url : Option String
  media_assets : Option AssetMap
  status : String
deriving DecidableEq

/-- JavaScript truthiness of a nullable text column: present and
non-empty. -/
def truthy : Option String → Bool
  | some s => !(s == "")
  | none => false

/-- Condition of the video branch in index.js line 123:
script_text and script_text.length > 100. -/
def videoCondB (script : Option String) : Bool :=
  truthy script && decide ((script.getD "").length > videoScriptThreshold)

/-- Categories launched by processMediaJob (index.js lines 104 to 128),
in the order the promises are pushed. -/
def launched (title script : Option String) : List Cat :=
  (if truthy script then [Cat.audio] else []) ++
  (if truthy title then [Cat.thumbnail] else []) ++
  (if videoCondB script then [Cat.video] else [])

/-- Categories launched for a loaded job row. -/
def launchedCats (row : JobRow) : List Cat :=
  launched row.title row.script_text

/-- Asset recorded for a settled category task: present exactly when
the chain fulfilled. -/
def assetOf : Option ChainResult → Option Asset
  | some c =>
    match c.result with
    | Except.ok u => some ⟨u, []⟩
    | Except.error _ => none
  | none => none

/-- Uploads written by a settled category task. -/
def uploadsOf : Option ChainResult → List (String × Buffer)
  | some c => c.uploads
  | none => []

/-- The three category chain runs of one pass (audio, thumbnail,
video), each present exactly when its category was launched. -/
def chainResults (env : Env) (jobId : String) (title script : Option String) :
    Option ChainResult × Option ChainResult × Option ChainResult :=
  let cats := launched title script
  let audioR :=
    if cats.contains Cat.audio then
      some (generateAudio env (script.getD "") jobId)
    else none
  let thumbR :=
    if cats.contains Cat.thumbnail then
      some (generateThumbnail env (title.getD "") jobId)
    else none
  let videoR :=
    if cats.contains Cat.video then
      some (generateVideo env (title.getD "") jobId)
    else none
  (audioR, thumbR, videoR)

/-- The aggregated asset map before format expansion. -/
def baseAssetsOf
    (cr : Option ChainResult × Option ChainResult × Option ChainResult) :
    AssetMap :=
  ⟨assetOf cr.1, assetOf cr.2.1, assetOf cr.2.2⟩

/-- The post step of index.js lines 147 to 157: when a video asset is
present, run format expansion on it and attach the variant map; the
whole step is wrapped in a try/catch so its failures never escape.
Returns the final map, the expansion uploads, and whether expansion
ran. -/
def expand (env : Env) (jobId : String) (base : AssetMap) :
    AssetMap × List (String × Buffer) × Bool :=
  match base.video with
  | some v =>
    let g := generateMultipleFormats env jobId
    ({ base with video := some ⟨v.url, g.1⟩ }, g.2, true)
  | none => (base, [], false)

/-- The media production part of one pass: asset map, uploads written,
and whether expansion ran, as a function of job id, title and script. -/
def passMedia (env : Env) (jobId : String) (title script : Option String) :
    AssetMap × List (String × Buffer) × Bool :=
  let cr := chainResults env jobId title script
  let base := baseAssetsOf cr
  let e := expand env jobId base
  (e.1, (uploadsOf cr.1 ++ uploadsOf cr.2.1 ++ uploadsOf cr.2.2) ++ e.2.1,
   e.2.2)

/-- updateJobMedia (index.js lines 73 to 86): one UPDATE that sets
media_url to the audio asset URL when present (SQL NULL otherwise),
replaces media_assets with the new map wholesale, and sets the status
to media_complete. -/
def updateJobMedia (row : JobRow) (assets : AssetMap) : JobRow :=
  { row with
    media_url := assets.audio.map Asset.url
    media_assets := some assets
    status := "media_complete" }

/-- Outcome of one processing pass over a loaded row: the persisted
row, the returned asset map, the uploads written, whether expansion
ran, and whether the pass returned normally (message acknowledged). -/
structure PassResult where
  row : JobRow
  assets : AssetMap
  uploads : List (String × Buffer)
  expansionRan : Bool
  acked : Bool
deriving DecidableEq

/-- processMediaJob on a loaded row (index.js lines 88 to 185): run the
applicable chains, aggregate settled results, expand video formats,
then persist through updateJobMedia; when that write fails the catch
block persists status failed (itself best-effort) and the pass fails. -/
def processWithRow (env : Env) (row : JobRow) : PassResult :=
  let m := passMedia env row.id row.title row.script_text
  if env.persistOk then
    ⟨updateJobMedia row m.1, m.1, m.2.1, m.2.2, true⟩
  else
    ⟨if env.failStatusUpdateOk then { row with status := "failed" } else row,
     m.1, m.2.1, m.2.2, false⟩

/-- processMediaJob including the load step: a missing row raises, the
catch block updates zero rows, and the message is rejected. -/
def processMediaJob (env : Env) (row : Option JobRow) : Option PassResult :=
  row.map (processWithRow env)

/-- Object storage content, as a map from key to stored bytes. -/
def Store : Type := String → Option Buffer

/-- Application of a list of uploads to a store, in order; each upload
overwrites its key. -/
def applyUploads (s : Store) (us : List (String × Buffer)) : Store :=
  us.foldl (fun f kv => fun k => if k = kv.1 then some kv.2 else f k) s

/-- Baseline environment for concrete scenarios: no remote credential
configured, every local step and every upload succeeds, every remote
status source reports pending, both database writes succeed. -/
def envBase : Env :=
  { elevenConfigured := false
  , elevenRequestOk := true
  , openaiConfigured := false
  , dalleRequestOk := true
  , dalleDownloadOk := true
  , midjourneyConfigured := false
  , midjourneySubmitOk := true
  , midjourneyStatus := fun _ => PollStatus.pending
  , midjourneyDownloadOk := true
  , pictoryConfigured := false
  , pictorySubmitOk := true
  , pictoryStatus := fun _ => PollStatus.pending
  , pictoryDownloadOk := true
  , runwayConfigured := false
  , runwaySubmitOk := true
  , runwayStatus := fun _ => PollStatus.pending
  , runwayDownloadOk := true
  , ffmpegRenderOk := true
  , formatDownloadOk := true
  , resizeOk := fun _ => true
  , measureText := String.length
  , uploadOk := fun _ => true
  , publicBaseUrl := "http://localhost:9000"
  , bucket := "relayforge-assets"
  , persistOk := true
  , failStatusUpdateOk := true }

/-- A concrete row with a title and a short non-empty script. -/
def rowShort : JobRow :=
  ⟨"job1", some "T", some "abc", none, none, "processing"⟩

/-- A concrete row whose script length is exactly the threshold 100. -/
def rowAtThreshold : JobRow :=
  ⟨"abc", some "Breaking News", some (String.mk (List.replicate 100 'a')),
   none, none, "processing"⟩

/-- A concrete row whose script length is 101. -/
def rowAboveThreshold : JobRow :=
  ⟨"abc", some "Breaking News", some (String.mk (List.replicate 101 'a')),
   none, none, "processing"⟩

theorem truthy_iff (o : Option String) :
    truthy o = true ↔ ∃ s, o = some s ∧ s ≠ "" := by
  cases o <;> simp [truthy]

theorem audio_mem_launched (t s : Option String) :
    Cat.audio ∈ launched t s ↔ truthy s = true := by
  cases hs : truthy s <;> cases ht : truthy t <;> cases hv : videoCondB s <;>
    simp [launched, hs, ht, hv]

theorem thumb_mem_launched (t s : Option String) :
    Cat.thumbnail ∈ launched t s ↔ truthy t = true := by
  cases hs : truthy s <;> cases ht : truthy t <;> cases hv : videoCondB s <;>
    simp [launched, hs, ht, hv]

theorem video_mem_launched (t s : Option String) :
    Cat.video ∈ launched t s ↔ videoCondB s = true := by
  cases hs : truthy s <;> cases ht : truthy t <;> cases hv : videoCondB s <;>
    simp [launched, hs, ht, hv]

theorem videoCondB_iff (s : Option String) :
    videoCondB s = true ↔ (s.getD "").length > videoScriptThreshold := by
  cases s with
  | none => simp [videoCondB, truthy]
  | some s =>
    by_cases h : s = "" <;>
      simp [videoCondB, truthy, h, videoScriptThreshold]

/-- C5: the applicability policy of processMediaJob holds exactly: an
audio task is launched iff the script text is present and non-empty, a
thumbnail task iff the title is present and non-empty, a video task iff
the script length strictly exceeds the threshold 100, and no other
tasks are launched. -/
theorem applicability_policy_exact (row : JobRow) :
    (Cat.audio ∈ launchedCats row ↔
      ∃ s, row.script_text = some s ∧ s ≠ "") ∧
    (Cat.thumbnail ∈ launchedCats row ↔
      ∃ t, row.title = some t ∧ t ≠ "") ∧
    (Cat.video ∈ launchedCats row ↔
      (row.script_text.getD "").length > videoScriptThreshold) ∧
    (∀ c, c ∈ launchedCats row →
      c = Cat.audio ∨ c = Cat.thumbnail ∨ c = Cat.video) := by
  refine ⟨?_, ?_, ?_, ?_⟩
  · rw [launchedCats, audio_mem_launched, truthy_iff]
  · rw [launchedCats, thumb_mem_launched, truthy_iff]
  · rw [launchedCats, video_mem_launched, videoCondB_iff]
  · intro c _
    cases c
    · exact Or.inl rfl
    · exact Or.inr (Or.inl rfl)
    · exact Or.inr (Or.inr rfl)

/-- C5 witness: on the concrete short-script row, the audio task is
launched and the video task is not. -/
theorem applicability_policy_exact_witness :
    Cat.audio ∈ launchedCats rowShort ∧ Cat.video ∉ launchedCats rowShort := by
  constructor
  · exact (applicability_policy_exact rowShort).1.mpr ⟨"abc", rfl, by decide⟩
  · intro h
    exact absurd ((applicability_policy_exact rowShort).2.2.1.mp h) (by decide)

/-- C4 counterexample: a job with a non-empty title and script length
exactly 100 (the claimed threshold, claimed inclusive) does not launch
the video task; only audio and thumbnail are launched. -/
theorem threshold_boundary_no_video_cex :
    (rowAtThreshold.script_text.getD "").length = 100 ∧
    truthy rowAtThreshold.title = true ∧
    launchedCats rowAtThreshold = [Cat.audio, Cat.thumbnail] := by decide

/-- C4 amended: a job with a non-empty title and script length strictly
greater than 100 launches all three category tasks. -/
theorem all_three_launched_above_threshold (row : JobRow)
    (ht : truthy row.title = true)
    (hs : (row.script_text.getD "").length > videoScriptThreshold) :
    launchedCats row = [Cat.audio, Cat.thumbnail, Cat.video] := by
  have hv : videoCondB row.script_text = true := (videoCondB_iff _).mpr hs
  have hts : truthy row.script_text = true := by
    cases hsc : row.script_text with
    | none =>
      rw [hsc] at hs
      simp [videoScriptThreshold] at hs
    | some s =>
      rw [hsc] at hs
      simp only [truthy, Bool.not_eq_true']
      rw [beq_eq_false_iff_ne]
      intro he
      rw [he] at hs
      simp [videoScriptThreshold] at hs
  simp [launchedCats, launched, hts, ht, hv]

/-- C4 amended witness: the concrete row with script length 101
launches all three tasks. -/
theorem all_three_launched_above_threshold_witness :
    launchedCats rowAboveThreshold = [Cat.audio, Cat.thumbnail, Cat.video] :=
  all_three_launched_above_threshold rowAboveThreshold (by decide) (by decide)

theorem primary_key_eq (j cat prov ext m s w : String)
    (h1 : "/" ++ cat ++ "_" = m) (h2 : prov ++ ("." ++ ext) = s)
    (h3 : m ++ s = w) :
    "jobs/" ++ j ++ w = specPrimaryKey j cat prov ext := by
  unfold specPrimaryKey
  rw [h1, h2]
  exact append_group ("jobs/" ++ j) m s w h3

/-- C8 counterexample: the expanded presentation written by resizeVideo
for the configured presentation named landscape uses the key
jobs/abc/video_landscape.mp4, not the claimed jobs/abc/landscape.mp4. -/
theorem presentation_key_convention_cex :
    ("landscape", 1920, 1080, "16:9") ∈ videoFormats ∧
    resizeVideoKey "abc" "landscape" = "jobs/abc/video_landscape.mp4" ∧
    specPresentationKey "abc" "landscape" "mp4" = "jobs/abc/landscape.mp4" ∧
    resizeVideoKey "abc" "landscape" ≠
      specPresentationKey "abc" "landscape" "mp4" := by decide

/-- C8 amended: every primary asset key follows
jobs/jobId/category_providerName.ext, and every expanded presentation
key follows jobs/jobId/video_presentationName.mp4, which is the primary
convention with the presentation name in the provider position. -/
theorem storage_key_convention_amended (j f : String) :
    elevenLabsAudioKey j = specPrimaryKey j "audio" "elevenlabs" "mp3" ∧
    audioFallbackKey j = specPrimaryKey j "audio" "fallback" "wav" ∧
    dalleThumbKey j = specPrimaryKey j "thumbnail" "dalle" "png" ∧
    midjourneyThumbKey j = specPrimaryKey j "thumbnail" "midjourney" "png" ∧
    thumbFallbackKey j = specPrimaryKey j "thumbnail" "fallback" "png" ∧
    pictoryVideoKey j = specPrimaryKey j "video" "pictory" "mp4" ∧
    runwayVideoKey j = specPrimaryKey j "video" "runway" "mp4" ∧
    videoFallbackKey j = specPrimaryKey j "video" "fallback" "mp4" ∧
    resizeVideoKey j f = specPrimaryKey j "video" f "mp4" := by
  refine ⟨?_, ?_, ?_, ?_, ?_, ?_, ?_, ?_, ?_⟩
  · exact primary_key_eq j "audio" "elevenlabs" "mp3" "/audio_"
      "elevenlabs.mp3" "/audio_elevenlabs.mp3" (by decide) (by decide)
      (by decide)
  · exact primary_key_eq j "audio" "fallback" "wav" "/audio_"
      "fallback.wav" "/audio_fallback.wav" (by decide) (by decide) (by decide)
  · exact primary_key_eq j "thumbnail" "dalle" "png" "/thumbnail_"
      "dalle.png" "/thumbnail_dalle.png" (by decide) (by decide) (by decide)
  · exact primary_key_eq j "thumbnail" "midjourney" "png" "/thumbnail_"
      "midjourney.png" "/thumbnail_midjourney.png" (by decide) (by decide)
      (by decide)
  · exact primary_key_eq j "thumbnail" "fallback" "png" "/thumbnail_"
      "fallback.png" "/thumbnail_fallback.png" (by decide) (by decide)
      (by decide)
  · exact primary_key_eq j "video" "pictory" "mp4" "/video_"
      "pictory.mp4" "/video_pictory.mp4" (by decide) (by decide) (by decide)
  · exact primary_key_eq j "video" "runway" "mp4" "/video_"
      "runway.mp4" "/video_runway.mp4" (by decide) (by decide) (by decide)
  · exact primary_key_eq j "video" "fallback" "mp4" "/video_"
      "fallback.mp4" "/video_fallback.mp4" (by decide) (by decide) (by decide)
  · have h1 : ("/" ++ "video" ++ "_" : String) = "/video_" := by decide
    have h2 : ("." ++ "mp4" : String) = ".mp4" := by decide
    unfold resizeVideoKey specPrimaryKey
    rw [h1, h2]
    exact str_append_assoc ("jobs/" ++ j ++ "/video_") f ".mp4"

/-- C10: the persistence write sets the top-level media_url column to
the audio asset URL when an audio asset is present in the map, and to
SQL NULL otherwise; the same holds for the row persisted by a
successful pass. -/
theorem media_url_from_audio_asset (env : Env) (row : JobRow)
    (assets : AssetMap) :
    (updateJobMedia row assets).media_url = assets.audio.map Asset.url ∧
    (env.persistOk = true →
      (processWithRow env row).row.media_url =
        (processWithRow env row).assets.audio.map Asset.url) := by
  constructor
  · rfl
  · intro h
    simp [processWithRow, h, updateJobMedia]

/-- C10 witness: on the concrete short-script row in the baseline
environment, the persisted media_url equals the audio asset URL of the
persisted map. -/
theorem media_url_from_audio_asset_witness :
    (processWithRow envBase rowShort).row.media_url =
      (processWithRow envBase rowShort).assets.audio.map Asset.url :=
  (media_url_from_audio_asset envBase rowShort ⟨none, none, none⟩).2 rfl

theorem pollAux_pending (status : Nat → PollStatus)
    (h : ∀ n, status n = PollStatus.pending) :
    ∀ fuel k, pollAux status k fuel = (Except.error GenErr.timeout, k + fuel) := by
  intro fuel
  induction fuel with
  | zero => intro k; simp [pollAux]
  | succ n ih =>
    intro k
    rw [pollAux, h k, ih (k + 1)]
    rw [Prod.mk.injEq]
    exact ⟨rfl, by omega⟩

theorem pollLoop_pending (maxAttempts : Nat) (status : Nat → PollStatus)
    (h : ∀ n, status n = PollStatus.pending) :
    pollLoop maxAttempts status = (Except.error GenErr.timeout, maxAttempts) := by
  rw [pollLoop, pollAux_pending status h maxAttempts 0]
  rw [Prod.mk.injEq]
  exact ⟨rfl, by omega⟩

/-- C6: a remote status source that never reports a terminal state
makes each poll loop perform exactly its configured budget of polls
(30 for Pictory, 20 for RunwayML, 20 for Midjourney) and end in a
timeout failure, after which the category chain proceeds to its local
fallback instead of crashing. -/
theorem poll_loops_bounded_timeout (env : Env) (t j : String)
    (hp : ∀ n, env.pictoryStatus n = PollStatus.pending)
    (hr : ∀ n, env.runwayStatus n = PollStatus.pending)
    (hm : ∀ n, env.midjourneyStatus n = PollStatus.pending)
    (hps : env.pictorySubmitOk = true)
    (hrs : env.runwaySubmitOk = true)
    (hms : env.midjourneySubmitOk = true) :
    (generatePictoryVideo env j).polls = 30 ∧
    (generatePictoryVideo env j).result = Except.error GenErr.timeout ∧
    (generateRunwayVideo env j).polls = 20 ∧
    (generateRunwayVideo env j).result = Except.error GenErr.timeout ∧
    (generateMidjourneyThumbnail env j).polls = 20 ∧
    (generateMidjourneyThumbnail env j).result = Except.error GenErr.timeout ∧
    (env.pictoryConfigured = true →
      (generateVideo env t j).attempted = [Prov.pictory, Prov.fallback] ∧
      (generateVideo env t j).result = (generateFallbackVideo env t j).result) ∧
    (env.pictoryConfigured = false → env.runwayConfigured = true →
      (generateVideo env t j).attempted = [Prov.runway, Prov.fallback] ∧
      (generateVideo env t j).result = (generateFallbackVideo env t j).result) ∧
    (env.openaiConfigured = false → env.midjourneyConfigured = true →
      (generateThumbnail env t j).attempted =
        [Prov.midjourney, Prov.fallback] ∧
      (generateThumbnail env t j).result =
        (generateFallbackThumbnail env t j).result) := by
  have hpl := pollLoop_pending 30 env.pictoryStatus hp
  have hrl := pollLoop_pending 20 env.runwayStatus hr
  have hml := pollLoop_pending 20 env.midjourneyStatus hm
  have hpv : generatePictoryVideo env j =
      { polls := 30, uploads := [], result := Except.error GenErr.timeout } := by
    rw [generatePictoryVideo, hps]
    simp [pictoryMaxAttempts, hpl]
  have hrv : generateRunwayVideo env j =
      { polls := 20, uploads := [], result := Except.error GenErr.timeout } := by
    rw [generateRunwayVideo, hrs]
    simp [runwayMaxAttempts, hrl]
  have hmt : generateMidjourneyThumbnail env j =
      { polls := 20, uploads := [], result := Except.error GenErr.timeout } := by
    rw [generateMidjourneyThumbnail, hms]
    simp [midjourneyMaxAttempts, hml]
  refine ⟨by rw [hpv], by rw [hpv], by rw [hrv], by rw [hrv], by rw [hmt],
    by rw [hmt], ?_, ?_, ?_⟩
  · intro hpc
    constructor
    · simp [generateVideo, hpc, hpv]
    · simp [generateVideo, hpc, hpv]
  · intro hpc hrc
    constructor
    · simp [generateVideo, hpc, hrc, hrv]
    · simp [generateVideo, hpc, hrc, hrv]
  · intro hoc hmc
    constructor
    · simp [generateThumbnail, hoc, hmc, hmt]
    · simp [generateThumbnail, hoc, hmc, hmt]

/-- An environment whose remote providers are configured but whose
status sources never terminate: Pictory for video, Midjourney as the
only thumbnail provider. -/
def envTimeout : Env :=
  { envBase with
    pictoryConfigured := true
    midjourneyConfigured := true }

/-- C6 witness: in the concrete never-terminating environment the
Pictory loop polls exactly 30 times, the RunwayML loop 20 times, the
Midjourney loop 20 times, all time out, and both chains proceed to
their fallback. -/
theorem poll_loops_bounded_timeout_witness :
    (generatePictoryVideo envTimeout "j").polls = 30 ∧
    (generatePictoryVideo envTimeout "j").result =
      Except.error GenErr.timeout ∧
    (generateRunwayVideo envTimeout "j").polls = 20 ∧
    (generateRunwayVideo envTimeout "j").result =
      Except.error GenErr.timeout ∧
    (generateMidjourneyThumbnail envTimeout "j").polls = 20 ∧
    (generateMidjourneyThumbnail envTimeout "j").result =
      Except.error GenErr.timeout ∧
    (envTimeout.pictoryConfigured = true →
      (generateVideo envTimeout "t" "j").attempted =
        [Prov.pictory, Prov.fallback] ∧
      (generateVideo envTimeout "t" "j").result =
        (generateFallbackVideo envTimeout "t" "j").result) ∧
    (envTimeout.pictoryConfigured = false →
      envTimeout.runwayConfigured = true →
      (generateVideo envTimeout "t" "j").attempted =
        [Prov.runway, Prov.fallback] ∧
      (generateVideo envTimeout "t" "j").result =
        (generateFallbackVideo envTimeout "t" "j").result) ∧
    (envTimeout.openaiConfigured = false →
      envTimeout.midjourneyConfigured = true →
      (generateThumbnail envTimeout "t" "j").attempted =
        [Prov.midjourney, Prov.fallback] ∧
      (generateThumbnail envTimeout "t" "j").result =
        (generateFallbackThumbnail envTimeout "t" "j").result) :=
  poll_loops_bounded_timeout envTimeout "t" "j"
    (fun _ => rfl) (fun _ => rfl) (fun _ => rfl) rfl rfl rfl

/-- An environment in which both the primary and the secondary remote
provider of each category are configured and the primary attempt
fails at submission. -/
def envBothConfigured : Env :=
  { envBase with
    pictoryConfigured := true
    runwayConfigured := true
    pictorySubmitOk := false
    openaiConfigured := true
    midjourneyConfigured := true
    dalleRequestOk := false }

/-- C2 counterexample: with Pictory and RunwayML both configured and
the Pictory attempt failing, the video chain attempts Pictory and then
the local fallback; RunwayML is never attempted. Likewise, with DALL-E
and Midjourney both configured and the DALL-E attempt failing, the
thumbnail chain never attempts Midjourney. -/
theorem secondary_skipped_on_primary_failure_cex :
    envBothConfigured.runwayConfigured = true ∧
    (generateVideo envBothConfigured "t" "j").attempted =
      [Prov.pictory, Prov.fallback] ∧
    Prov.runway ∉ (generateVideo envBothConfigured "t" "j").attempted ∧
    envBothConfigured.midjourneyConfigured = true ∧
    (generateThumbnail envBothConfigured "t" "j").attempted =
      [Prov.dalle, Prov.fallback] ∧
    Prov.midjourney ∉
      (generateThumbnail envBothConfigured "t" "j").attempted := by decide

/-- C2 amended: the remote secondary provider is attempted only when
the remote primary is unconfigured; when a configured primary attempt
fails, the chain advances directly to the local fallback, skipping the
secondary. -/
theorem secondary_only_when_primary_unconfigured (env : Env)
    (t j : String) :
    (Prov.runway ∈ (generateVideo env t j).attempted →
      env.pictoryConfigured = false) ∧
    (env.pictoryConfigured = true →
      (generatePictoryVideo env j).result.isOk = false →
      (generateVideo env t j).attempted = [Prov.pictory, Prov.fallback]) ∧
    (Prov.midjourney ∈ (generateThumbnail env t j).attempted →
      env.openaiConfigured = false) ∧
    (env.openaiConfigured = true →
      (generateDALLEThumbnail env j).result.isOk = false →
      (generateThumbnail env t j).attempted = [Prov.dalle, Prov.fallback]) := by
  refine ⟨?_, ?_, ?_, ?_⟩
  · intro hmem
    by_contra hc
    rw [Bool.not_eq_false] at hc
    cases hres : (generatePictoryVideo env j).result with
    | ok u => simp [generateVideo, hc, hres] at hmem
    | error e => simp [generateVideo, hc, hres] at hmem
  · intro hpc hfail
    cases hres : (generatePictoryVideo env j).result with
    | ok u =>
      rw [hres] at hfail
      simp [Except.isOk, Except.toBool] at hfail
    | error e => simp [generateVideo, hpc, hres]
  · intro hmem
    by_contra hc
    rw [Bool.not_eq_false] at hc
    cases hres : (generateDALLEThumbnail env j).result with
    | ok u => simp [generateThumbnail, hc, hres] at hmem
    | error e => simp [generateThumbnail, hc, hres] at hmem
  · intro hoc hfail
    cases hres : (generateDALLEThumbnail env j).result with
    | ok u =>
      rw [hres] at hfail
      simp [Except.isOk, Except.toBool] at hfail
    | error e => simp [generateThumbnail, hoc, hres]

/-- C2 amended witness: in the concrete both-configured environment the
failed Pictory attempt advances straight to the fallback, and the
midjourney membership implication applies vacuously through the
theorem. -/
theorem secondary_only_when_primary_unconfigured_witness :
    (generateVideo envBothConfigured "t" "j").attempted =
      [Prov.pictory, Prov.fallback] ∧
    (generateThumbnail envBothConfigured "t" "j").attempted =
      [Prov.dalle, Prov.fallback] :=
  ⟨(secondary_only_when_primary_unconfigured envBothConfigured "t" "j").2.1
      rfl (by decide),
   (secondary_only_when_primary_unconfigured envBothConfigured "t" "j").2.2.2
      rfl (by decide)⟩

/-- An environment where every upload succeeds but the local ffmpeg
render of the fallback video errors. -/
def envRenderFail : Env :=
  { envBase with ffmpegRenderOk := false }

/-- C3 counterexample: with every storage upload succeeding (the upload
at the fallback video key included, and no upload even attempted), the
ffmpeg render error makes the local fallback video provider fail in its
generation step; its failure is not an upload failure. -/
theorem video_fallback_render_failure_cex :
    envRenderFail.uploadOk (videoFallbackKey "j") = true ∧
    (generateFallbackVideo envRenderFail "t" "j").uploads = [] ∧
    (generateFallbackVideo envRenderFail "t" "j").result =
      Except.error GenErr.renderFailed ∧
    (generateFallbackVideo envRenderFail "t" "j").result ≠
      Except.error GenErr.uploadFailed := by decide

/-- C3 amended: for non-empty title and script, the silent-WAV audio
fallback and the canvas thumbnail fallback can fail only at the storage
upload of their key, while the ffmpeg video fallback can fail only at
that upload or at its local ffmpeg render step. -/
theorem fallback_failure_modes (env : Env) (s t j : String)
    (_hs : s ≠ "") (_ht : t ≠ "") :
    ((generateFallbackAudio env s j).result.isOk = false →
      env.uploadOk (audioFallbackKey j) = false) ∧
    ((generateFallbackThumbnail env t j).result.isOk = false →
      env.uploadOk (thumbFallbackKey j) = false) ∧
    ((generateFallbackVideo env t j).result.isOk = false →
      env.uploadOk (videoFallbackKey j) = false ∨
        env.ffmpegRenderOk = false) := by
  refine ⟨?_, ?_, ?_⟩
  · intro hfail
    by_contra hc
    rw [Bool.not_eq_false] at hc
    simp [generateFallbackAudio, tryUpload, hc, Except.isOk,
      Except.toBool] at hfail
  · intro hfail
    by_contra hc
    rw [Bool.not_eq_false] at hc
    simp [generateFallbackThumbnail, tryUpload, hc, Except.isOk,
      Except.toBool] at hfail
  · intro hfail
    by_cases hr : env.ffmpegRenderOk = true
    · left
      by_contra hc
      rw [Bool.not_eq_false] at hc
      simp [generateFallbackVideo, hr, tryUpload, hc, Except.isOk,
        Except.toBool] at hfail
    · right
      exact Bool.not_eq_true _ |>.mp hr

/-- C3 amended witness: with every upload failing, the audio fallback
fails and the theorem pins its failure on the upload at the audio
fallback key. -/
theorem fallback_failure_modes_witness :
    ({ envBase with uploadOk := fun _ => false } : Env).uploadOk
      (audioFallbackKey "j") = false :=
  (fallback_failure_modes { envBase with uploadOk := fun _ => false }
      "abc" "T" "j" (by decide) (by decide)).1 (by decide)

/-- An environment in which every storage upload fails. -/
def envAllUploadsFail : Env := { envBase with uploadOk := fun _ => false }

/-- An environment in which the final persistence write fails. -/
def envPersistFail : Env := { envBase with persistOk := false }

/-- A concrete row with a short non-empty script and no title: exactly
one applicable category (audio). -/
def rowScriptOnly : JobRow :=
  ⟨"j1", none, some "hello", none, none, "processing"⟩

/-- C1 counterexample: a pass in which the only applicable category
(audio) fails on every provider, yet the persisted final status is
media_complete, not the failed status the claim requires. -/
theorem all_failed_still_media_complete_cex :
    launchedCats rowScriptOnly = [Cat.audio] ∧
    (processWithRow envAllUploadsFail rowScriptOnly).assets =
      ⟨none, none, none⟩ ∧
    (processWithRow envAllUploadsFail rowScriptOnly).row.status =
      "media_complete" ∧
    (processWithRow envAllUploadsFail rowScriptOnly).row.status ≠
      "failed" := by decide

/-- C1 amended: whenever the final persistence write succeeds, the
persisted status is media_complete - regardless of how many applicable
categories failed, including all of them, and including the case of
zero applicable categories; the failed status is persisted only when
the final write itself fails (and the follow-up status write
succeeds). -/
theorem final_status_media_complete_on_persist (env : Env) (row : JobRow) :
    (env.persistOk = true →
      (processWithRow env row).row.status = "media_complete" ∧
      (processWithRow env row).acked = true) ∧
    (env.persistOk = false → env.failStatusUpdateOk = true →
      (processWithRow env row).row.status = "failed" ∧
      (processWithRow env row).acked = false) := by
  constructor
  · intro h
    simp [processWithRow, h, updateJobMedia]
  · intro h h2
    simp [processWithRow, h, h2]

/-- C1 amended witness: a successful write persists media_complete on
the concrete row; a failed write persists failed. -/
theorem final_status_media_complete_on_persist_witness :
    ((processWithRow envBase rowShort).row.status = "media_complete" ∧
      (processWithRow envBase rowShort).acked = true) ∧
    ((processWithRow envPersistFail rowShort).row.status = "failed" ∧
      (processWithRow envPersistFail rowShort).acked = false) :=
  ⟨(final_status_media_complete_on_persist envBase rowShort).1 rfl,
   (final_status_media_complete_on_persist envPersistFail rowShort).2 rfl rfl⟩

theorem expand_audio (env : Env) (j : String) (b : AssetMap) :
    (expand env j b).1.audio = b.audio := by
  cases hb : b.video <;> simp [expand, hb]

theorem expand_thumb (env : Env) (j : String) (b : AssetMap) :
    (expand env j b).1.thumbnail = b.thumbnail := by
  cases hb : b.video <;> simp [expand, hb]

theorem expand_video_url (env : Env) (j : String) (b : AssetMap) :
    (expand env j b).1.video.map Asset.url = b.video.map Asset.url := by
  cases hb : b.video <;> simp [expand, hb]

theorem expand_ran (env : Env) (j : String) (b : AssetMap) :
    (expand env j b).2.2 = b.video.isSome := by
  cases hb : b.video <;> simp [expand, hb]

theorem expand_video_isSome (env : Env) (j : String) (b : AssetMap) :
    (expand env j b).1.video.isSome = b.video.isSome := by
  cases hb : b.video <;> simp [expand, hb]

theorem processWithRow_assets (env : Env) (row : JobRow) :
    (processWithRow env row).assets =
      (passMedia env row.id row.title row.script_text).1 := by
  cases h : env.persistOk <;> simp [processWithRow, h]

theorem processWithRow_uploads (env : Env) (row : JobRow) :
    (processWithRow env row).uploads =
      (passMedia env row.id row.title row.script_text).2.1 := by
  cases h : env.persistOk <;> simp [processWithRow, h]

theorem processWithRow_ran (env : Env) (row : JobRow) :
    (processWithRow env row).expansionRan =
      (passMedia env row.id row.title row.script_text).2.2 := by
  cases h : env.persistOk <;> simp [processWithRow, h]

theorem processWithRow_status (env : Env) (row : JobRow) :
    (processWithRow env row).row.status =
      if env.persistOk then "media_complete"
      else if env.failStatusUpdateOk then "failed" else row.status := by
  cases h : env.persistOk <;> cases h2 : env.failStatusUpdateOk <;>
    simp [processWithRow, h, h2, updateJobMedia]

theorem processWithRow_row_fields (env : Env) (row : JobRow) :
    (processWithRow env row).row.id = row.id ∧
    (processWithRow env row).row.title = row.title ∧
    (processWithRow env row).row.script_text = row.script_text := by
  cases h : env.persistOk <;> cases h2 : env.failStatusUpdateOk <;>
    simp [processWithRow, h, h2, updateJobMedia]



theorem chainResults_resize_inv (env : Env) (g : String → Bool) (fb : Bool)
    (j : String) (t s : Option String) :
    chainResults { env with resizeOk := g, formatDownloadOk := fb } j t s =
      chainResults env j t s := rfl

theorem gmf_fst (env : Env) (j : String) :
    (generateMultipleFormats env j).1 =
      (match (resizeVideo env j "landscape").result with
       | Except.ok u => [("landscape", ⟨u, "1920x1080", "16:9"⟩)]
       | Except.error _ => []) ++
      (match (resizeVideo env j "portrait").result with
       | Except.ok u => [("portrait", ⟨u, "1080x1920", "9:16"⟩)]
       | Except.error _ => []) ++
      (match (resizeVideo env j "square").result with
       | Except.ok u => [("square", ⟨u, "1080x1080", "1:1"⟩)]
       | Except.error _ => []) := by
  cases r1 : (resizeVideo env j "landscape").result <;>
    cases r2 : (resizeVideo env j "portrait").result <;>
    cases r3 : (resizeVideo env j "square").result <;>
    simp [generateMultipleFormats, videoFormats, r1, r2, r3] <;>
    decide

theorem resizeVideo_isOk (env : Env) (j name : String) :
    (resizeVideo env j name).result.isOk =
      (env.formatDownloadOk && env.resizeOk name &&
        env.uploadOk (resizeVideoKey j name)) := by
  cases hfd : env.formatDownloadOk <;> cases hr : env.resizeOk name <;>
    cases hu : env.uploadOk (resizeVideoKey j name) <;>
    simp [resizeVideo, tryUpload, hfd, hr, hu, Except.isOk, Except.toBool]

theorem lookup_gmf_landscape (env : Env) (j : String) :
    (lookupFmt "landscape" (generateMultipleFormats env j).1 ≠ none) ↔
      (resizeVideo env j "landscape").result.isOk = true := by
  rw [gmf_fst]
  cases r1 : (resizeVideo env j "landscape").result <;>
    cases r2 : (resizeVideo env j "portrait").result <;>
    cases r3 : (resizeVideo env j "square").result <;>
    simp [lookupFmt, r1, Except.isOk, Except.toBool]

theorem lookup_gmf_portrait (env : Env) (j : String) :
    (lookupFmt "portrait" (generateMultipleFormats env j).1 ≠ none) ↔
      (resizeVideo env j "portrait").result.isOk = true := by
  rw [gmf_fst]
  cases r1 : (resizeVideo env j "landscape").result <;>
    cases r2 : (resizeVideo env j "portrait").result <;>
    cases r3 : (resizeVideo env j "square").result <;>
    simp [lookupFmt, r2, Except.isOk, Except.toBool]

theorem lookup_gmf_square (env : Env) (j : String) :
    (lookupFmt "square" (generateMultipleFormats env j).1 ≠ none) ↔
      (resizeVideo env j "square").result.isOk = true := by
  rw [gmf_fst]
  cases r1 : (resizeVideo env j "landscape").result <;>
    cases r2 : (resizeVideo env j "portrait").result <;>
    cases r3 : (resizeVideo env j "square").result <;>
    simp [lookupFmt, r3, Except.isOk, Except.toBool]

/-- C9: format expansion runs exactly when a video asset is present in
the aggregated map; varying the outcomes of the expansion step (the
per-presentation resize results and the primary-video download) never
changes the persisted status, the audio or thumbnail assets, or the
video asset URL; and each presentation succeeds or fails independently
of the others, characterized by its own download, resize and upload
outcomes. -/
theorem expansion_isolated_from_status (env : Env) (row : JobRow)
    (g : String → Bool) (fb : Bool) (j : String) :
    ((processWithRow env row).expansionRan =
      (processWithRow env row).assets.video.isSome) ∧
    ((processWithRow { env with resizeOk := g, formatDownloadOk := fb }
        row).row.status = (processWithRow env row).row.status) ∧
    ((processWithRow { env with resizeOk := g, formatDownloadOk := fb }
        row).assets.audio = (processWithRow env row).assets.audio) ∧
    ((processWithRow { env with resizeOk := g, formatDownloadOk := fb }
        row).assets.thumbnail = (processWithRow env row).assets.thumbnail) ∧
    ((processWithRow { env with resizeOk := g, formatDownloadOk := fb }
        row).assets.video.map Asset.url =
      (processWithRow env row).assets.video.map Asset.url) ∧
    ((lookupFmt "landscape" (generateMultipleFormats env j).1 ≠ none) ↔
      (env.formatDownloadOk && env.resizeOk "landscape" &&
        env.uploadOk (resizeVideoKey j "landscape")) = true) ∧
    ((lookupFmt "portrait" (generateMultipleFormats env j).1 ≠ none) ↔
      (env.formatDownloadOk && env.resizeOk "portrait" &&
        env.uploadOk (resizeVideoKey j "portrait")) = true) ∧
    ((lookupFmt "square" (generateMultipleFormats env j).1 ≠ none) ↔
      (env.formatDownloadOk && env.resizeOk "square" &&
        env.uploadOk (resizeVideoKey j "square")) = true) := by
  refine ⟨?_, ?_, ?_, ?_, ?_, ?_, ?_, ?_⟩
  · rw [processWithRow_ran, processWithRow_assets]
    simp only [passMedia]
    rw [expand_ran, expand_video_isSome]
  · rw [processWithRow_status, processWithRow_status]
  · rw [processWithRow_assets, processWithRow_assets]
    simp only [passMedia]
    rw [expand_audio, expand_audio, chainResults_resize_inv]
  · rw [processWithRow_assets, processWithRow_assets]
    simp only [passMedia]
    rw [expand_thumb, expand_thumb, chainResults_resize_inv]
  · rw [processWithRow_assets, processWithRow_assets]
    simp only [passMedia]
    rw [expand_video_url, expand_video_url, chainResults_resize_inv]
  · rw [lookup_gmf_landscape, resizeVideo_isOk]
  · rw [lookup_gmf_portrait, resizeVideo_isOk]
  · rw [lookup_gmf_square, resizeVideo_isOk]

theorem applyUploads_not_mem (us : List (String × Buffer)) (s : Store)
    (k : String) (h : k ∉ us.map Prod.fst) : applyUploads s us k = s k := by
  induction us generalizing s with
  | nil => rfl
  | cons kv rest ih =>
    simp only [List.map_cons, List.mem_cons, not_or] at h
    obtain ⟨h1, h2⟩ := h
    calc applyUploads s (kv :: rest) k
        = applyUploads (fun k' => if k' = kv.1 then some kv.2 else s k') rest k := rfl
      _ = (fun k' => if k' = kv.1 then some kv.2 else s k') k :=
          ih (fun k' => if k' = kv.1 then some kv.2 else s k') h2
      _ = s k := by simp [h1]

theorem applyUploads_agree (us : List (String × Buffer)) (s t : Store)
    (h : ∀ k, k ∉ us.map Prod.fst → s k = t k) :
    ∀ k, applyUploads s us k = applyUploads t us k := by
  induction us generalizing s t with
  | nil => intro k; exact h k (by simp)
  | cons kv rest ih =>
    intro k
    show applyUploads (fun k' => if k' = kv.1 then some kv.2 else s k') rest k =
      applyUploads (fun k' => if k' = kv.1 then some kv.2 else t k') rest k
    apply ih
    intro k' hk'
    by_cases hkv : k' = kv.1
    · simp [hkv]
    · simp only [hkv, if_false, ite_false]
      exact h k' (by simp [hk', hkv])

/-- C7: reprocessing the same job produces the identical upload list
(hence the identical set of storage keys) because the first pass does
not change the id, title or script the second pass reads; replaying the
same uploads leaves the store pointwise unchanged (overwrite, no new
keys); and the persistence write replaces the asset map wholesale,
independent of whatever map the row held before. -/
theorem reprocessing_idempotent_keys (env : Env) (row : JobRow) (s : Store)
    (k : String) (rowX : JobRow) (assets : AssetMap) :
    ((processWithRow env ((processWithRow env row).row)).uploads =
      (processWithRow env row).uploads) ∧
    (applyUploads (applyUploads s (processWithRow env row).uploads)
        ((processWithRow env ((processWithRow env row).row)).uploads) k =
      applyUploads s (processWithRow env row).uploads k) ∧
    ((updateJobMedia rowX assets).media_assets = some assets) := by
  have hf := processWithRow_row_fields env row
  have hup : (processWithRow env ((processWithRow env row).row)).uploads =
      (processWithRow env row).uploads := by
    rw [processWithRow_uploads, processWithRow_uploads, hf.1, hf.2.1, hf.2.2]
  refine ⟨hup, ?_, rfl⟩
  rw [hup]
  exact applyUploads_agree (processWithRow env row).uploads
    (applyUploads s (processWithRow env row).uploads) s
    (fun k' hk' => applyUploads_not_mem (processWithRow env row).uploads s k' hk')
    k

end Nexus
